import Mathlib

/-!
Verification of the asyncio adapter in `curl_cffi/aio.py`.

The Python module wraps a libcurl multi-handle for asyncio.  We embed the
adapter's observable state (the two registry dictionaries, the socket watch
set, the event-loop reader/writer registrations, the timer set, and the
state of every asyncio future the adapter has created) as a Lean structure,
and each Python method or libcurl callback as a pure function on that
state.  Calls into the native libcurl library do not change adapter state;
where useful we record them in bookkeeping fields (`socketActions`,
`multiRemoved`, `multiAdded`) so that theorems can state that no such call
was made.  Python exceptions are modelled with `Except`.
-/

/-- A Python exception escaping one of the adapter's methods. -/
inductive PyError where
  | typeError (msg : String)
  | keyError (key : Nat)
deriving DecidableEq, Repr

/-- The error object built by `curl._get_error(retcode, "perform")`:
it carries the native status code and the name of the failing operation. -/
structure CurlError where
  code : Nat
  action : String
deriving DecidableEq, Repr

/-- State of one asyncio future (a transfer's completion handle).
`future.done()` is true in every state but `pending`; `future.cancelled()`
only in `cancelled`. -/
inductive FutureState where
  | pending
  | result
  | error (e : CurlError)
  | cancelled
deriving DecidableEq, Repr

/-- A `Curl` easy-handle wrapper object: `id` is its Python object identity
(the key of `_curl2future`), `ccurl` the native easy handle pointer
(`curl._curl`, the key of `_curl2curl`). -/
structure Curl where
  id : Nat
  ccurl : Nat
deriving DecidableEq, Repr

/-- Modelled from the spec: `Curl._get_error` is defined in `curl.py`, which
is not among the provided sources.  Per the spec, the error object carries
the native status code and a textual description of the failing operation. -/
def Curl._get_error (_c : Curl) (code : Nat) (action : String) : CurlError :=
  { code := code, action := action }

/-- One message popped from `curl_multi_info_read`: kind (`msg`), the native
easy handle (`easy_handle`) and the completion status (`data.result`). -/
structure CurlMsg where
  msg : Nat
  easy_handle : Nat
  result : Nat
deriving DecidableEq, Repr

/-- Python dict lookup `d[k]` / `d.get(k)` on an association list. -/
def dictGet [DecidableEq α] (d : List (α × β)) (k : α) : Option β :=
  match d with
  | [] => none
  | (k', v) :: rest => if k' = k then some v else dictGet rest k

/-- Python dict assignment `d[k] = v`: replace in place or append. -/
def dictSet [DecidableEq α] (d : List (α × β)) (k : α) (v : β) : List (α × β) :=
  match d with
  | [] => [(k, v)]
  | (k', v') :: rest => if k' = k then (k, v) :: rest else (k', v') :: dictSet rest k v

/-- Python dict removal `d.pop(k, None)` (ignoring the returned value). -/
def dictPop [DecidableEq α] (d : List (α × β)) (k : α) : List (α × β) :=
  d.filter (fun p => p.1 ≠ k)

/-- Python set insertion `s.add(x)`. -/
def setAdd [DecidableEq α] (s : List α) (x : α) : List α :=
  if x ∈ s then s else s ++ [x]

def CURL_POLL_IN : Nat := 1
def CURL_POLL_OUT : Nat := 2
def CURL_POLL_REMOVE : Nat := 4

def CURL_SOCKET_TIMEOUT : Int := -1

def CURL_CSELECT_IN : Nat := 1
def CURL_CSELECT_OUT : Nat := 2

def CURLMSG_DONE : Nat := 1

/-- The observable state of one `AsyncCurl` instance together with the
asyncio loop objects it owns.

* `curlmAlive` — whether `self._curlm` is still a live multi-handle
  (`close` sets it to `None`);
* `curl2future` — the dict `self._curl2future` (Curl object → future),
  futures identified by the `Nat` id under which they appear in `futures`;
* `curl2curl` — the dict `self._curl2curl` (native easy handle → Curl);
* `sockfds` — the set `self._sockfds`;
* `futures` — the state of every future created by `loop.create_future`;
* `readers` / `writers` — descriptors with a reader/writer watch installed
  on the event loop;
* `timers` — the set `self._timers` (timer ids);
* `timerStates` — cancellation flag of every timer created by `call_later`;
* `nextId` — fresh-id counter for futures and timers;
* `checkerCancelled` — whether the force-timeout task was cancelled;
* `warnings` / `prints` — diagnostics emitted;
* `socketActions` — every `curl_multi_socket_action` call made;
* `multiAdded` / `multiRemoved` — every `curl_multi_add_handle` /
  `curl_multi_remove_handle` call made (native easy handles). -/
structure AsyncCurlState where
  curlmAlive : Bool
  curl2future : List (Curl × Nat)
  curl2curl : List (Nat × Curl)
  sockfds : List Int
  futures : List (Nat × FutureState)
  readers : List Int
  writers : List Int
  timers : List Nat
  timerStates : List (Nat × Bool)
  nextId : Nat
  checkerCancelled : Bool
  warnings : List String
  prints : List String
  socketActions : List (Int × Nat)
  multiAdded : List Nat
  multiRemoved : List Nat
deriving DecidableEq, Repr

/-- `future.done()` for the future with id `fid`. -/
def future_done (s : AsyncCurlState) (fid : Nat) : Bool :=
  match dictGet s.futures fid with
  | some FutureState.pending => false
  | some _ => true
  | none => false

/-- `future.cancelled()` for the future with id `fid`. -/
def future_cancelled (s : AsyncCurlState) (fid : Nat) : Bool :=
  match dictGet s.futures fid with
  | some FutureState.cancelled => true
  | _ => false

/-- `future.set_result(None)`. -/
def fut_set_result (s : AsyncCurlState) (fid : Nat) : AsyncCurlState :=
  { s with futures := dictSet s.futures fid FutureState.result }

/-- `future.set_exception(e)`. -/
def fut_set_exception (s : AsyncCurlState) (fid : Nat) (e : CurlError) : AsyncCurlState :=
  { s with futures := dictSet s.futures fid (FutureState.error e) }

/-- `future.cancel()` (the guards ensure it is only called when pending). -/
def fut_cancel (s : AsyncCurlState) (fid : Nat) : AsyncCurlState :=
  { s with futures := dictSet s.futures fid FutureState.cancelled }

/-- `AsyncCurl._pop_future`: calls `curl_multi_remove_handle`, pops the
`_curl2curl` entry, and pops and returns the `_curl2future` entry. -/
def _pop_future (s : AsyncCurlState) (curl : Curl) : Option Nat × AsyncCurlState :=
  (dictGet s.curl2future curl,
   { s with multiRemoved := s.multiRemoved ++ [curl.ccurl],
            curl2curl := dictPop s.curl2curl curl.ccurl,
            curl2future := dictPop s.curl2future curl })

/-- `AsyncCurl.remove_handle`: pop the future and cancel it if still pending. -/
def remove_handle (s : AsyncCurlState) (curl : Curl) : AsyncCurlState :=
  match _pop_future s curl with
  | (some future, s') =>
    if !future_done s' future && !future_cancelled s' future then fut_cancel s' future else s'
  | (none, s') => s'

/-- `AsyncCurl.set_result`: pop the future and resolve it if still pending. -/
def set_result (s : AsyncCurlState) (curl : Curl) : AsyncCurlState :=
  match _pop_future s curl with
  | (some future, s') =>
    if !future_done s' future && !future_cancelled s' future then fut_set_result s' future else s'
  | (none, s') => s'

/-- `AsyncCurl.set_exception`: pop the future and fail it if still pending. -/
def set_exception (s : AsyncCurlState) (curl : Curl) (exc : CurlError) : AsyncCurlState :=
  match _pop_future s curl with
  | (some future, s') =>
    if !future_done s' future && !future_cancelled s' future then fut_set_exception s' future exc
    else s'
  | (none, s') => s'

/-- `AsyncCurl.add_handle`: register the transfer with the engine, create a
fresh future, and store both registry mappings.  Returns the future. -/
def add_handle (s : AsyncCurlState) (curl : Curl) : Nat × AsyncCurlState :=
  (s.nextId,
   { s with multiAdded := s.multiAdded ++ [curl.ccurl],
            nextId := s.nextId + 1,
            futures := dictSet s.futures s.nextId FutureState.pending,
            curl2future := dictSet s.curl2future curl s.nextId,
            curl2curl := dictSet s.curl2curl curl.ccurl curl })

/-- One iteration of the `for curl, future in self._curl2future.items()`
loop in `close`: unregister from the engine, then `set_result(None)` if the
future is neither done nor cancelled. -/
def closeResolveStep (st : AsyncCurlState) (e : Curl × Nat) : AsyncCurlState :=
  let st1 := { st with multiRemoved := st.multiRemoved ++ [e.1.ccurl] }
  if !future_done st1 e.2 && !future_cancelled st1 e.2 then fut_set_result st1 e.2 else st1

/-- One iteration of the `for sockfd in self._sockfds` loop in `close`:
`loop.remove_reader(sockfd)` and `loop.remove_writer(sockfd)`. -/
def closeRemoveWatchStep (st : AsyncCurlState) (fd : Int) : AsyncCurlState :=
  { st with readers := st.readers.filter (fun x => x ≠ fd),
            writers := st.writers.filter (fun x => x ≠ fd) }

/-- `timer.cancel()` for the timer with id `t`. -/
def cancelTimerStep (st : AsyncCurlState) (t : Nat) : AsyncCurlState :=
  { st with timerStates := dictSet st.timerStates t true }

/-- `AsyncCurl.close`: cancel the checker task, resolve all still-pending
registered futures with `None`, release the multi-handle, remove all
reader/writer watches, and cancel all timers.  Note that neither
`_sockfds` nor `_timers` is cleared. -/
def close (s : AsyncCurlState) : AsyncCurlState :=
  let s1 := { s with checkerCancelled := true }
  let s2 := s1.curl2future.foldl closeResolveStep s1
  let s3 := { s2 with curlmAlive := false }
  let s4 := s3.sockfds.foldl closeRemoveWatchStep s3
  s4.timers.foldl cancelTimerStep s4

/-- The libcurl timer callback `timer_function`: `-1` cancels every timer in
`_timers` and replaces the set by a fresh empty one; otherwise a new timer
is scheduled via `loop.call_later` and added to `_timers`. -/
def timer_function (s : AsyncCurlState) (timeout_ms : Int) : AsyncCurlState :=
  if timeout_ms = -1 then
    let s1 := s.timers.foldl cancelTimerStep s
    { s1 with timers := [] }
  else
    { s with nextId := s.nextId + 1,
             timerStates := dictSet s.timerStates s.nextId false,
             timers := setAdd s.timers s.nextId }

/-- The two trailing `if what & CURL_POLL_IN` / `if what & CURL_POLL_OUT`
blocks of `socket_function`: install a reader/writer watch invoking the
Drive Loop and add the descriptor to `_sockfds`. -/
def socketAddPhase (s : AsyncCurlState) (sockfd : Int) (what : Nat) :
    Except PyError AsyncCurlState :=
  let s1 := if what &&& CURL_POLL_IN != 0 then
      { s with readers := setAdd s.readers sockfd, sockfds := setAdd s.sockfds sockfd }
    else s
  let s2 := if what &&& CURL_POLL_OUT != 0 then
      { s1 with writers := setAdd s1.writers sockfd, sockfds := setAdd s1.sockfds sockfd }
    else s1
  Except.ok s2

/-- The libcurl socket callback `socket_function`.  If any of the in/out/
remove bits is set: a tracked descriptor first has both watches removed and
is dropped from `_sockfds`; an untracked descriptor with the remove bit set
raises `TypeError`.  Then the in/out bits install reader/writer watches and
re-add the descriptor. -/
def socket_function (s : AsyncCurlState) (sockfd : Int) (what : Nat) :
    Except PyError AsyncCurlState :=
  if what &&& CURL_POLL_IN != 0 || what &&& CURL_POLL_OUT != 0 ||
      what &&& CURL_POLL_REMOVE != 0 then
    if sockfd ∈ s.sockfds then
      socketAddPhase
        { s with readers := s.readers.filter (fun x => x ≠ sockfd),
                 writers := s.writers.filter (fun x => x ≠ sockfd),
                 sockfds := s.sockfds.filter (fun x => x ≠ sockfd) } sockfd what
    else if what &&& CURL_POLL_REMOVE != 0 then
      Except.error (PyError.typeError ("File descriptor " ++ toString sockfd ++ " not found."))
    else
      socketAddPhase s sockfd what
  else
    socketAddPhase s sockfd what

/-- `AsyncCurl.socket_action`: a call into the native engine; the adapter
state is unchanged apart from recording the call. -/
def socket_action (s : AsyncCurlState) (sockfd : Int) (ev_bitmask : Nat) : AsyncCurlState :=
  { s with socketActions := s.socketActions ++ [(sockfd, ev_bitmask)] }

/-- The `while True` drain loop of `process_data`, parameterised by the
sequence of messages `curl_multi_info_read` will yield before returning
NULL.  The lookup `self._curl2curl[curl_msg.easy_handle]` is a plain dict
indexing: a missing key raises `KeyError`. -/
def processMsgs (s : AsyncCurlState) : List CurlMsg → Except PyError AsyncCurlState
  | [] => Except.ok s
  | m :: rest =>
    if m.msg = CURLMSG_DONE then
      match dictGet s.curl2curl m.easy_handle with
      | none => Except.error (PyError.keyError m.easy_handle)
      | some curl =>
        if m.result = 0 then processMsgs (set_result s curl) rest
        else processMsgs (set_exception s curl (Curl._get_error curl m.result "perform")) rest
    else
      processMsgs { s with prints := s.prints ++ ["NOT DONE"] } rest

/-- `AsyncCurl.process_data`: if the multi-handle is already released, warn
and return; otherwise call `socket_action` and drain the message queue. -/
def process_data (s : AsyncCurlState) (sockfd : Int) (ev_bitmask : Nat)
    (msgs : List CurlMsg) : Except PyError AsyncCurlState :=
  if !s.curlmAlive then
    Except.ok { s with warnings := s.warnings ++ ["Curlm alread closed! quitting from process_data"] }
  else
    processMsgs (socket_action s sockfd ev_bitmask) msgs

/-- An empty adapter state, as after `__init__` with no transfers. -/
def initState : AsyncCurlState :=
  { curlmAlive := true, curl2future := [], curl2curl := [], sockfds := [],
    futures := [], readers := [], writers := [], timers := [], timerStates := [],
    nextId := 0, checkerCancelled := false, warnings := [], prints := [],
    socketActions := [], multiAdded := [], multiRemoved := [] }

/-- Example state: one transfer registered whose future is already resolved. -/
def exC1 : AsyncCurlState :=
  { initState with curl2future := [(⟨0, 42⟩, 0)], curl2curl := [(42, ⟨0, 42⟩)],
                   futures := [(0, FutureState.result)], nextId := 1 }

/-- Example state: a watched descriptor and a scheduled timer, no transfers. -/
def exC3 : AsyncCurlState :=
  { initState with sockfds := [7], readers := [7], timers := [5], timerStates := [(5, false)] }

/-- Example state: one watched descriptor with both watches, one scheduled
timer, and one registered pending transfer. -/
def exC3b : AsyncCurlState :=
  { initState with sockfds := [7], readers := [7], writers := [7],
                   timers := [5], timerStates := [(5, false)],
                   curl2future := [(⟨0, 42⟩, 0)], curl2curl := [(42, ⟨0, 42⟩)],
                   futures := [(0, FutureState.pending)], nextId := 1 }

/-- Example state: one registered transfer with a pending future. -/
def exC4 : AsyncCurlState :=
  { initState with curl2future := [(⟨0, 42⟩, 0)], curl2curl := [(42, ⟨0, 42⟩)],
                   futures := [(0, FutureState.pending)], nextId := 1 }

/-- Example state: descriptor 7 watched in both directions. -/
def exC6 : AsyncCurlState :=
  { initState with sockfds := [7], readers := [7], writers := [7] }

/-- Example state: one scheduled timer and one pending future. -/
def exC7 : AsyncCurlState :=
  { initState with timers := [3], timerStates := [(3, false)],
                   futures := [(0, FutureState.pending)], nextId := 1 }

/-- Example state: one registered transfer with a pending future (used for
the duplicate-registration scenario). -/
def exC9 : AsyncCurlState :=
  { initState with curl2future := [(⟨0, 42⟩, 0)], curl2curl := [(42, ⟨0, 42⟩)],
                   futures := [(0, FutureState.pending)], nextId := 1 }

/-! ### Association-list lemmas -/

theorem dictGet_dictSet_self [DecidableEq α] (d : List (α × β)) (k : α) (v : β) :
    dictGet (dictSet d k v) k = some v := by
  induction d with
  | nil => simp [dictGet, dictSet]
  | cons p rest ih =>
    obtain ⟨a, b⟩ := p
    by_cases ha : a = k
    · subst ha
      simp [dictGet, dictSet]
    · simp [dictGet, dictSet, ha, ih]

theorem dictGet_dictSet_ne [DecidableEq α] (d : List (α × β)) (k k' : α) (v : β)
    (h : k' ≠ k) : dictGet (dictSet d k v) k' = dictGet d k' := by
  induction d with
  | nil => simp [dictGet, dictSet, Ne.symm h]
  | cons p rest ih =>
    obtain ⟨a, b⟩ := p
    by_cases ha : a = k
    · subst ha
      simp [dictGet, dictSet, Ne.symm h]
    · by_cases ha' : a = k'
      · simp [dictGet, dictSet, ha, ha', h]
      · simp [dictGet, dictSet, ha, ha', ih]

theorem dictGet_dictPop_ne [DecidableEq α] (d : List (α × β)) (k k' : α)
    (h : k' ≠ k) : dictGet (dictPop d k) k' = dictGet d k' := by
  induction d with
  | nil => rfl
  | cons p rest ih =>
    obtain ⟨a, b⟩ := p
    simp only [dictPop, ne_eq, decide_not] at ih ⊢
    by_cases ha : a = k
    · subst ha
      simp [dictGet, List.filter_cons, Ne.symm h, ih]
    · simp [dictGet, List.filter_cons, ha, ih]

theorem dictPop_of_get_none [DecidableEq α] (d : List (α × β)) (k : α)
    (h : dictGet d k = none) : dictPop d k = d := by
  induction d with
  | nil => rfl
  | cons p rest ih =>
    obtain ⟨a, b⟩ := p
    by_cases ha : a = k
    · rw [dictGet, if_pos ha] at h
      exact absurd h (by simp)
    · rw [dictGet, if_neg ha] at h
      have h2 := ih h
      simp only [dictPop, ne_eq, decide_not] at h2 ⊢
      simp [List.filter_cons, ha, h2]

/-! ### Future-state helpers -/

theorem future_done_of_terminal (s : AsyncCurlState) (fid : Nat) (st : FutureState)
    (h : dictGet s.futures fid = some st) (hne : st ≠ FutureState.pending) :
    future_done s fid = true := by
  unfold future_done
  rw [h]
  cases st with
  | pending => exact absurd rfl hne
  | result => rfl
  | error e => rfl
  | cancelled => rfl

theorem future_done_of_pending (s : AsyncCurlState) (fid : Nat)
    (h : dictGet s.futures fid = some FutureState.pending) :
    future_done s fid = false := by
  unfold future_done
  rw [h]

theorem future_cancelled_of_pending (s : AsyncCurlState) (fid : Nat)
    (h : dictGet s.futures fid = some FutureState.pending) :
    future_cancelled s fid = false := by
  unfold future_cancelled
  rw [h]

theorem mem_of_dictGet [DecidableEq α] {d : List (α × β)} {k : α} {v : β}
    (h : dictGet d k = some v) : (k, v) ∈ d := by
  induction d with
  | nil => cases h
  | cons p rest ih =>
    obtain ⟨a, b⟩ := p
    rw [dictGet] at h
    by_cases ha : a = k
    · rw [if_pos ha] at h
      obtain rfl : b = v := Option.some.inj h
      subst ha
      exact List.mem_cons_self _ _
    · rw [if_neg ha] at h
      exact List.mem_cons_of_mem _ (ih h)

/-! ### Generic fold lemmas -/

theorem foldl_invariant {σ : Type u} {α : Type v} (f : σ → α → σ) (P : σ → Prop)
    (hf : ∀ s a, P s → P (f s a)) (l : List α) (s : σ) (h : P s) :
    P (l.foldl f s) := by
  induction l generalizing s with
  | nil => exact h
  | cons a l ih => exact ih (f s a) (hf s a h)

theorem foldl_fix {σ : Type u} {α : Type v} {γ : Type w} (f : σ → α → σ) (g : σ → γ)
    (hf : ∀ s a, g (f s a) = g s) (l : List α) (s : σ) : g (l.foldl f s) = g s := by
  induction l generalizing s with
  | nil => rfl
  | cons a l ih => rw [List.foldl_cons, ih, hf]

/-! ### Single-assignment: the resolution paths never touch a terminal future -/

theorem set_result_keeps_terminal (s : AsyncCurlState) (c : Curl) (fid : Nat)
    (st : FutureState) (h : dictGet s.futures fid = some st)
    (hne : st ≠ FutureState.pending) :
    dictGet (set_result s c).futures fid = some st := by
  unfold set_result _pop_future
  cases hf : dictGet s.curl2future c with
  | none => simpa [hf] using h
  | some fid' =>
    simp only [hf]
    by_cases hfe : fid' = fid
    · subst hfe
      have hd : future_done
          { s with multiRemoved := s.multiRemoved ++ [c.ccurl],
                   curl2curl := dictPop s.curl2curl c.ccurl,
                   curl2future := dictPop s.curl2future c } fid' = true :=
        future_done_of_terminal _ _ st h hne
      simp only [hd]
      simpa using h
    · split
      · simpa [fut_set_result,
          dictGet_dictSet_ne _ _ _ _ (fun hh => hfe hh.symm)] using h
      · exact h

theorem set_exception_keeps_terminal (s : AsyncCurlState) (c : Curl) (exc : CurlError)
    (fid : Nat) (st : FutureState) (h : dictGet s.futures fid = some st)
    (hne : st ≠ FutureState.pending) :
    dictGet (set_exception s c exc).futures fid = some st := by
  unfold set_exception _pop_future
  cases hf : dictGet s.curl2future c with
  | none => simpa [hf] using h
  | some fid' =>
    simp only [hf]
    by_cases hfe : fid' = fid
    · subst hfe
      have hd : future_done
          { s with multiRemoved := s.multiRemoved ++ [c.ccurl],
                   curl2curl := dictPop s.curl2curl c.ccurl,
                   curl2future := dictPop s.curl2future c } fid' = true :=
        future_done_of_terminal _ _ st h hne
      simp only [hd]
      simpa using h
    · split
      · simpa [fut_set_exception,
          dictGet_dictSet_ne _ _ _ _ (fun hh => hfe hh.symm)] using h
      · exact h

theorem remove_handle_keeps_terminal (s : AsyncCurlState) (c : Curl) (fid : Nat)
    (st : FutureState) (h : dictGet s.futures fid = some st)
    (hne : st ≠ FutureState.pending) :
    dictGet (remove_handle s c).futures fid = some st := by
  unfold remove_handle _pop_future
  cases hf : dictGet s.curl2future c with
  | none => simpa [hf] using h
  | some fid' =>
    simp only [hf]
    by_cases hfe : fid' = fid
    · subst hfe
      have hd : future_done
          { s with multiRemoved := s.multiRemoved ++ [c.ccurl],
                   curl2curl := dictPop s.curl2curl c.ccurl,
                   curl2future := dictPop s.curl2future c } fid' = true :=
        future_done_of_terminal _ _ st h hne
      simp only [hd]
      simpa using h
    · split
      · simpa [fut_cancel,
          dictGet_dictSet_ne _ _ _ _ (fun hh => hfe hh.symm)] using h
      · exact h

/-! ### Field-preservation lemmas for the `close` folds -/

theorem closeResolveStep_sockfds (st : AsyncCurlState) (e : Curl × Nat) :
    (closeResolveStep st e).sockfds = st.sockfds := by
  simp only [closeResolveStep]
  split <;> rfl

theorem closeResolveStep_timers (st : AsyncCurlState) (e : Curl × Nat) :
    (closeResolveStep st e).timers = st.timers := by
  simp only [closeResolveStep]
  split <;> rfl

theorem closeResolveStep_curlmAlive (st : AsyncCurlState) (e : Curl × Nat) :
    (closeResolveStep st e).curlmAlive = st.curlmAlive := by
  simp only [closeResolveStep]
  split <;> rfl

theorem closeResolveStep_readers (st : AsyncCurlState) (e : Curl × Nat) :
    (closeResolveStep st e).readers = st.readers := by
  simp only [closeResolveStep]
  split <;> rfl

theorem closeResolveStep_writers (st : AsyncCurlState) (e : Curl × Nat) :
    (closeResolveStep st e).writers = st.writers := by
  simp only [closeResolveStep]
  split <;> rfl

theorem closeResolveStep_timerStates (st : AsyncCurlState) (e : Curl × Nat) :
    (closeResolveStep st e).timerStates = st.timerStates := by
  simp only [closeResolveStep]
  split <;> rfl

theorem closeResolveStep_keeps_terminal (st : AsyncCurlState) (e : Curl × Nat)
    (fid : Nat) (fs : FutureState) (h : dictGet st.futures fid = some fs)
    (hne : fs ≠ FutureState.pending) :
    dictGet (closeResolveStep st e).futures fid = some fs := by
  simp only [closeResolveStep]
  by_cases hfe : e.2 = fid
  · have hd : future_done { st with multiRemoved := st.multiRemoved ++ [e.1.ccurl] } e.2 = true := by
      rw [hfe]
      exact future_done_of_terminal _ _ fs h hne
    simp only [hd]
    simpa using h
  · split
    · simpa [fut_set_result,
        dictGet_dictSet_ne _ _ _ _ (fun hh => hfe hh.symm)] using h
    · exact h

theorem closeResolveStep_resolves_pending (st : AsyncCurlState) (e : Curl × Nat)
    (h : dictGet st.futures e.2 = some FutureState.pending) :
    dictGet (closeResolveStep st e).futures e.2 = some FutureState.result := by
  have hd : future_done { st with multiRemoved := st.multiRemoved ++ [e.1.ccurl] } e.2 = false :=
    future_done_of_pending _ _ h
  have hc : future_cancelled { st with multiRemoved := st.multiRemoved ++ [e.1.ccurl] } e.2 = false :=
    future_cancelled_of_pending _ _ h
  simp only [closeResolveStep, hd, hc]
  simp [fut_set_result, dictGet_dictSet_self]

theorem closeResolveStep_get_ne (st : AsyncCurlState) (e : Curl × Nat) (fid : Nat)
    (hne : fid ≠ e.2) :
    dictGet (closeResolveStep st e).futures fid = dictGet st.futures fid := by
  simp only [closeResolveStep]
  split
  · simp [fut_set_result, dictGet_dictSet_ne _ _ _ _ hne]
  · rfl

theorem foldl_closeResolveStep_resolves (l : List (Curl × Nat)) (s : AsyncCurlState)
    (c : Curl) (fid : Nat) (hmem : (c, fid) ∈ l)
    (h : dictGet s.futures fid = some FutureState.pending ∨
         dictGet s.futures fid = some FutureState.result) :
    dictGet (l.foldl closeResolveStep s).futures fid = some FutureState.result := by
  induction l generalizing s with
  | nil => cases hmem
  | cons e l ih =>
    rw [List.foldl_cons]
    rcases List.mem_cons.mp hmem with he | hmem'
    · have hres : dictGet (closeResolveStep s e).futures fid = some FutureState.result := by
        rcases h with h | h
        · have : e.2 = fid := by rw [← he]
          rw [← this] at h ⊢
          exact closeResolveStep_resolves_pending s e h
        · exact closeResolveStep_keeps_terminal s e fid _ h (by simp)
      exact foldl_invariant closeResolveStep
        (fun t => dictGet t.futures fid = some FutureState.result)
        (fun t a ht => closeResolveStep_keeps_terminal t a fid _ ht (by simp)) l _ hres
    · have h' : dictGet (closeResolveStep s e).futures fid = some FutureState.pending ∨
          dictGet (closeResolveStep s e).futures fid = some FutureState.result := by
        by_cases hfe : fid = e.2
        · rcases h with h | h
          · rw [hfe] at h ⊢
            exact Or.inr (closeResolveStep_resolves_pending s e h)
          · exact Or.inr (closeResolveStep_keeps_terminal s e fid FutureState.result h (by simp))
        · rw [closeResolveStep_get_ne s e fid hfe]
          exact h
      exact ih _ hmem' h'

theorem foldl_closeRemoveWatchStep_unwatched (l : List Int) (s : AsyncCurlState)
    (fd : Int) (hmem : fd ∈ l) :
    fd ∉ (l.foldl closeRemoveWatchStep s).readers ∧
    fd ∉ (l.foldl closeRemoveWatchStep s).writers := by
  induction l generalizing s with
  | nil => cases hmem
  | cons a l ih =>
    rw [List.foldl_cons]
    rcases List.mem_cons.mp hmem with rfl | hmem'
    · have hstart : fd ∉ (closeRemoveWatchStep s fd).readers ∧
          fd ∉ (closeRemoveWatchStep s fd).writers := by
        constructor <;> simp [closeRemoveWatchStep, List.mem_filter]
      exact foldl_invariant closeRemoveWatchStep
        (fun t => fd ∉ t.readers ∧ fd ∉ t.writers)
        (fun t x ht => ⟨fun hx => ht.1 (List.mem_of_mem_filter hx),
                        fun hx => ht.2 (List.mem_of_mem_filter hx)⟩) l _ hstart
    · exact ih _ hmem'

theorem foldl_cancelTimerStep_cancelled (l : List Nat) (s : AsyncCurlState)
    (t : Nat) (hmem : t ∈ l) :
    dictGet (l.foldl cancelTimerStep s).timerStates t = some true := by
  induction l generalizing s with
  | nil => cases hmem
  | cons a l ih =>
    rw [List.foldl_cons]
    rcases List.mem_cons.mp hmem with rfl | hmem'
    · exact foldl_invariant cancelTimerStep
        (fun st => dictGet st.timerStates t = some true)
        (fun st x hst => by
          show dictGet (cancelTimerStep st x).timerStates t = some true
          by_cases hx : x = t
          · rw [hx]
            simp [cancelTimerStep, dictGet_dictSet_self]
          · simpa [cancelTimerStep, dictGet_dictSet_ne _ _ _ _ (Ne.symm hx)] using hst) l _
        (by simp [cancelTimerStep, dictGet_dictSet_self])
    · exact ih _ hmem'

@[simp] theorem foldT_readers (l : List Nat) (s : AsyncCurlState) :
    (l.foldl cancelTimerStep s).readers = s.readers :=
  foldl_fix cancelTimerStep AsyncCurlState.readers (fun _ _ => rfl) l s

@[simp] theorem foldT_writers (l : List Nat) (s : AsyncCurlState) :
    (l.foldl cancelTimerStep s).writers = s.writers :=
  foldl_fix cancelTimerStep AsyncCurlState.writers (fun _ _ => rfl) l s

@[simp] theorem foldT_futures (l : List Nat) (s : AsyncCurlState) :
    (l.foldl cancelTimerStep s).futures = s.futures :=
  foldl_fix cancelTimerStep AsyncCurlState.futures (fun _ _ => rfl) l s

@[simp] theorem foldT_sockfds (l : List Nat) (s : AsyncCurlState) :
    (l.foldl cancelTimerStep s).sockfds = s.sockfds :=
  foldl_fix cancelTimerStep AsyncCurlState.sockfds (fun _ _ => rfl) l s

@[simp] theorem foldT_timers (l : List Nat) (s : AsyncCurlState) :
    (l.foldl cancelTimerStep s).timers = s.timers :=
  foldl_fix cancelTimerStep AsyncCurlState.timers (fun _ _ => rfl) l s

@[simp] theorem foldT_curlmAlive (l : List Nat) (s : AsyncCurlState) :
    (l.foldl cancelTimerStep s).curlmAlive = s.curlmAlive :=
  foldl_fix cancelTimerStep AsyncCurlState.curlmAlive (fun _ _ => rfl) l s

@[simp] theorem foldT_curl2future (l : List Nat) (s : AsyncCurlState) :
    (l.foldl cancelTimerStep s).curl2future = s.curl2future :=
  foldl_fix cancelTimerStep AsyncCurlState.curl2future (fun _ _ => rfl) l s

@[simp] theorem foldW_futures (l : List Int) (s : AsyncCurlState) :
    (l.foldl closeRemoveWatchStep s).futures = s.futures :=
  foldl_fix closeRemoveWatchStep AsyncCurlState.futures (fun _ _ => rfl) l s

@[simp] theorem foldW_sockfds (l : List Int) (s : AsyncCurlState) :
    (l.foldl closeRemoveWatchStep s).sockfds = s.sockfds :=
  foldl_fix closeRemoveWatchStep AsyncCurlState.sockfds (fun _ _ => rfl) l s

@[simp] theorem foldW_timers (l : List Int) (s : AsyncCurlState) :
    (l.foldl closeRemoveWatchStep s).timers = s.timers :=
  foldl_fix closeRemoveWatchStep AsyncCurlState.timers (fun _ _ => rfl) l s

@[simp] theorem foldW_timerStates (l : List Int) (s : AsyncCurlState) :
    (l.foldl closeRemoveWatchStep s).timerStates = s.timerStates :=
  foldl_fix closeRemoveWatchStep AsyncCurlState.timerStates (fun _ _ => rfl) l s

@[simp] theorem foldW_curlmAlive (l : List Int) (s : AsyncCurlState) :
    (l.foldl closeRemoveWatchStep s).curlmAlive = s.curlmAlive :=
  foldl_fix closeRemoveWatchStep AsyncCurlState.curlmAlive (fun _ _ => rfl) l s

@[simp] theorem foldW_curl2future (l : List Int) (s : AsyncCurlState) :
    (l.foldl closeRemoveWatchStep s).curl2future = s.curl2future :=
  foldl_fix closeRemoveWatchStep AsyncCurlState.curl2future (fun _ _ => rfl) l s

@[simp] theorem foldR_sockfds (l : List (Curl × Nat)) (s : AsyncCurlState) :
    (l.foldl closeResolveStep s).sockfds = s.sockfds :=
  foldl_fix _ _ closeResolveStep_sockfds l s

@[simp] theorem foldR_timers (l : List (Curl × Nat)) (s : AsyncCurlState) :
    (l.foldl closeResolveStep s).timers = s.timers :=
  foldl_fix _ _ closeResolveStep_timers l s

@[simp] theorem foldR_readers (l : List (Curl × Nat)) (s : AsyncCurlState) :
    (l.foldl closeResolveStep s).readers = s.readers :=
  foldl_fix _ _ closeResolveStep_readers l s

@[simp] theorem foldR_writers (l : List (Curl × Nat)) (s : AsyncCurlState) :
    (l.foldl closeResolveStep s).writers = s.writers :=
  foldl_fix _ _ closeResolveStep_writers l s

@[simp] theorem foldR_timerStates (l : List (Curl × Nat)) (s : AsyncCurlState) :
    (l.foldl closeResolveStep s).timerStates = s.timerStates :=
  foldl_fix _ _ closeResolveStep_timerStates l s

@[simp] theorem foldR_curlmAlive (l : List (Curl × Nat)) (s : AsyncCurlState) :
    (l.foldl closeResolveStep s).curlmAlive = s.curlmAlive :=
  foldl_fix _ _ closeResolveStep_curlmAlive l s

/-! ### What `close` does, field by field -/

theorem close_sockfds (s : AsyncCurlState) : (close s).sockfds = s.sockfds := by
  simp [close]

theorem close_timers (s : AsyncCurlState) : (close s).timers = s.timers := by
  simp [close]

theorem close_curlmAlive (s : AsyncCurlState) : (close s).curlmAlive = false := by
  simp [close]

theorem close_keeps_terminal (s : AsyncCurlState) (fid : Nat) (st : FutureState)
    (h : dictGet s.futures fid = some st) (hne : st ≠ FutureState.pending) :
    dictGet (close s).futures fid = some st := by
  simp only [close, foldT_futures, foldW_futures]
  exact foldl_invariant closeResolveStep
    (fun t => dictGet t.futures fid = some st)
    (fun t a ht => closeResolveStep_keeps_terminal t a fid st ht hne) _ _ h

theorem close_resolves_pending (s : AsyncCurlState) (c : Curl) (fid : Nat)
    (hreg : dictGet s.curl2future c = some fid)
    (hp : dictGet s.futures fid = some FutureState.pending) :
    dictGet (close s).futures fid = some FutureState.result := by
  simp only [close, foldT_futures, foldW_futures]
  exact foldl_closeResolveStep_resolves _ _ c fid (mem_of_dictGet hreg) (Or.inl hp)

theorem close_unwatches (s : AsyncCurlState) (fd : Int) (hfd : fd ∈ s.sockfds) :
    fd ∉ (close s).readers ∧ fd ∉ (close s).writers := by
  simp only [close, foldT_readers, foldT_writers, foldW_timers, foldR_sockfds]
  exact foldl_closeRemoveWatchStep_unwatched _ _ fd hfd

theorem close_cancels_timers (s : AsyncCurlState) (t : Nat) (ht : t ∈ s.timers) :
    dictGet (close s).timerStates t = some true := by
  simp only [close, foldW_timers, foldR_timers]
  exact foldl_cancelTimerStep_cancelled _ _ t ht

/-! ### Resolution helpers: what happens to a pending registered future -/

theorem set_result_resolves (s : AsyncCurlState) (c : Curl) (fid : Nat)
    (hf : dictGet s.curl2future c = some fid)
    (hp : dictGet s.futures fid = some FutureState.pending) :
    dictGet (set_result s c).futures fid = some FutureState.result := by
  unfold set_result _pop_future
  simp only [hf]
  have hd : future_done
      { s with multiRemoved := s.multiRemoved ++ [c.ccurl],
               curl2curl := dictPop s.curl2curl c.ccurl,
               curl2future := dictPop s.curl2future c } fid = false :=
    future_done_of_pending _ _ hp
  have hc2 : future_cancelled
      { s with multiRemoved := s.multiRemoved ++ [c.ccurl],
               curl2curl := dictPop s.curl2curl c.ccurl,
               curl2future := dictPop s.curl2future c } fid = false :=
    future_cancelled_of_pending _ _ hp
  simp only [hd, hc2]
  simp [fut_set_result, dictGet_dictSet_self]

theorem set_exception_resolves (s : AsyncCurlState) (c : Curl) (exc : CurlError)
    (fid : Nat) (hf : dictGet s.curl2future c = some fid)
    (hp : dictGet s.futures fid = some FutureState.pending) :
    dictGet (set_exception s c exc).futures fid = some (FutureState.error exc) := by
  unfold set_exception _pop_future
  simp only [hf]
  have hd : future_done
      { s with multiRemoved := s.multiRemoved ++ [c.ccurl],
               curl2curl := dictPop s.curl2curl c.ccurl,
               curl2future := dictPop s.curl2future c } fid = false :=
    future_done_of_pending _ _ hp
  have hc2 : future_cancelled
      { s with multiRemoved := s.multiRemoved ++ [c.ccurl],
               curl2curl := dictPop s.curl2curl c.ccurl,
               curl2future := dictPop s.curl2future c } fid = false :=
    future_cancelled_of_pending _ _ hp
  simp only [hd, hc2]
  simp [fut_set_exception, dictGet_dictSet_self]

/-! ### Socket callback helpers -/

theorem socket_function_remove_missing (s : AsyncCurlState) (sockfd : Int)
    (what : Nat) (hmem : sockfd ∉ s.sockfds) (hrem : what &&& CURL_POLL_REMOVE ≠ 0) :
    socket_function s sockfd what =
      Except.error (PyError.typeError ("File descriptor " ++ toString sockfd ++ " not found.")) := by
  simp [socket_function, hmem, hrem]

theorem socket_function_remove_tracked (s : AsyncCurlState) (sockfd : Int)
    (hmem : sockfd ∈ s.sockfds) :
    socket_function s sockfd CURL_POLL_REMOVE = Except.ok
      { s with readers := s.readers.filter (fun x => x ≠ sockfd),
               writers := s.writers.filter (fun x => x ≠ sockfd),
               sockfds := s.sockfds.filter (fun x => x ≠ sockfd) } := by
  have h2 : (CURL_POLL_REMOVE &&& CURL_POLL_IN != 0) = false := by decide
  have h3 : (CURL_POLL_REMOVE &&& CURL_POLL_OUT != 0) = false := by decide
  have h4 : (CURL_POLL_REMOVE &&& CURL_POLL_REMOVE != 0) = true := by decide
  have h5 : CURL_POLL_REMOVE ≠ 0 := by decide
  simp [socket_function, socketAddPhase, h2, h3, h4, h5, hmem]

/-! ## Claims -/

/-- **C1**: for every transfer, its completion handle transitions to a
terminal state at most once: once it is in any terminal state (resolved,
errored, or cancelled), every further resolution attempt through
`set_result`, `set_exception`, `remove_handle`, or `close` leaves its state
unchanged. -/
theorem completion_handle_terminal_at_most_once (s : AsyncCurlState) (c : Curl)
    (exc : CurlError) (fid : Nat) (st : FutureState)
    (h : dictGet s.futures fid = some st) (hne : st ≠ FutureState.pending) :
    dictGet (set_result s c).futures fid = some st ∧
    dictGet (set_exception s c exc).futures fid = some st ∧
    dictGet (remove_handle s c).futures fid = some st ∧
    dictGet (close s).futures fid = some st :=
  ⟨set_result_keeps_terminal s c fid st h hne,
   set_exception_keeps_terminal s c exc fid st h hne,
   remove_handle_keeps_terminal s c fid st h hne,
   close_keeps_terminal s fid st h hne⟩

/-- Witness for C1: a concretely resolved future stays resolved under all
four resolution paths. -/
theorem completion_handle_terminal_at_most_once_witness :
    dictGet exC1.futures 0 = some FutureState.result ∧
    (dictGet (set_result exC1 ⟨0, 42⟩).futures 0 = some FutureState.result ∧
     dictGet (set_exception exC1 ⟨0, 42⟩ ⟨7, "perform"⟩).futures 0 = some FutureState.result ∧
     dictGet (remove_handle exC1 ⟨0, 42⟩).futures 0 = some FutureState.result ∧
     dictGet (close exC1).futures 0 = some FutureState.result) :=
  ⟨rfl, completion_handle_terminal_at_most_once exC1 ⟨0, 42⟩ ⟨7, "perform"⟩ 0
    FutureState.result rfl (by decide)⟩

/-- **C2** counterexample: a transfer-done message whose easy handle (42) is
not in the registry makes `process_data` raise a `KeyError` — the lookup is
a plain dict indexing, not a no-op, and the exception propagates out of the
Drive Loop. -/
theorem process_data_unknown_handle_cex :
    process_data initState (-1) 0 [⟨1, 42, 0⟩] =
      Except.error (PyError.keyError 42) := rfl

/-- **C2** (amended): when the Drive Loop pops a transfer-done message whose
native easy handle is not registered, the direct registry lookup raises a
`KeyError` which propagates out of `process_data`; only the resolution
helpers treat unknown transfers as no-ops. -/
theorem process_data_unknown_handle_keyerror (s : AsyncCurlState) (sockfd : Int)
    (ev_bitmask : Nat) (m : CurlMsg) (rest : List CurlMsg)
    (halive : s.curlmAlive = true) (hmsg : m.msg = CURLMSG_DONE)
    (hnone : dictGet s.curl2curl m.easy_handle = none) :
    process_data s sockfd ev_bitmask (m :: rest) =
      Except.error (PyError.keyError m.easy_handle) := by
  simp [process_data, halive, processMsgs, socket_action, hmsg, hnone]

/-- Witness for the amended C2. -/
theorem process_data_unknown_handle_keyerror_witness :
    initState.curlmAlive = true ∧
    (⟨1, 42, 0⟩ : CurlMsg).msg = CURLMSG_DONE ∧
    dictGet initState.curl2curl 42 = none ∧
    process_data initState (-1) 0 [⟨1, 42, 0⟩] = Except.error (PyError.keyError 42) :=
  ⟨rfl, rfl, rfl,
   process_data_unknown_handle_keyerror initState (-1) 0 ⟨1, 42, 0⟩ [] rfl rfl rfl⟩

/-- **C3** counterexample: after `close`, the Socket Watch Set (`_sockfds`)
and the Timer Set (`_timers`) are not empty — `close` removes the loop
watches and cancels the timers but never clears either set. -/
theorem close_does_not_clear_sets_cex :
    (close exC3).sockfds = [7] ∧ (close exC3).timers = [5] := ⟨rfl, rfl⟩

/-- **C3** (amended): after `close()`, every watched descriptor's reader and
writer watches are removed from the event loop, every timer in the Timer
Set is cancelled, every registered pending completion handle is resolved
with a plain `None` result, and the multi-handle is released; however the
`_sockfds` and `_timers` sets themselves are left unchanged (not cleared). -/
theorem close_cleanup (s : AsyncCurlState) (fd : Int) (t : Nat) (c : Curl) (fid : Nat)
    (hfd : fd ∈ s.sockfds) (ht : t ∈ s.timers)
    (hreg : dictGet s.curl2future c = some fid)
    (hp : dictGet s.futures fid = some FutureState.pending) :
    fd ∉ (close s).readers ∧ fd ∉ (close s).writers ∧
    dictGet (close s).timerStates t = some true ∧
    dictGet (close s).futures fid = some FutureState.result ∧
    (close s).sockfds = s.sockfds ∧ (close s).timers = s.timers ∧
    (close s).curlmAlive = false :=
  ⟨(close_unwatches s fd hfd).1, (close_unwatches s fd hfd).2,
   close_cancels_timers s t ht, close_resolves_pending s c fid hreg hp,
   close_sockfds s, close_timers s, close_curlmAlive s⟩

/-- Witness for the amended C3. -/
theorem close_cleanup_witness :
    (7 : Int) ∈ exC3b.sockfds ∧ (5 : Nat) ∈ exC3b.timers ∧
    dictGet exC3b.curl2future ⟨0, 42⟩ = some 0 ∧
    dictGet exC3b.futures 0 = some FutureState.pending ∧
    ((7 : Int) ∉ (close exC3b).readers ∧ (7 : Int) ∉ (close exC3b).writers ∧
     dictGet (close exC3b).timerStates 5 = some true ∧
     dictGet (close exC3b).futures 0 = some FutureState.result ∧
     (close exC3b).sockfds = exC3b.sockfds ∧ (close exC3b).timers = exC3b.timers ∧
     (close exC3b).curlmAlive = false) :=
  ⟨by decide, by decide, by decide, by decide,
   close_cleanup exC3b 7 5 ⟨0, 42⟩ 0 (by decide) (by decide) (by decide) (by decide)⟩

/-- **C4**: a drained transfer-done message resolves the transfer's
completion handle according to the native status code: 0 resolves it ok,
any non-zero code resolves it with an error carrying that code and the
failing operation name "perform". -/
theorem process_data_done_resolves_by_status (s : AsyncCurlState) (sockfd : Int)
    (ev_bitmask : Nat) (m : CurlMsg) (c : Curl) (fid : Nat)
    (halive : s.curlmAlive = true) (hmsg : m.msg = CURLMSG_DONE)
    (hc : dictGet s.curl2curl m.easy_handle = some c)
    (hf : dictGet s.curl2future c = some fid)
    (hp : dictGet s.futures fid = some FutureState.pending) :
    ∃ s', process_data s sockfd ev_bitmask [m] = Except.ok s' ∧
      dictGet s'.futures fid =
        some (if m.result = 0 then FutureState.result
              else FutureState.error ⟨m.result, "perform"⟩) := by
  by_cases hr : m.result = 0
  · refine ⟨set_result (socket_action s sockfd ev_bitmask) c, ?_, ?_⟩
    · simp [process_data, halive, processMsgs, socket_action, hmsg, hc, hr]
    · rw [if_pos hr]
      exact set_result_resolves (socket_action s sockfd ev_bitmask) c fid hf hp
  · refine ⟨set_exception (socket_action s sockfd ev_bitmask) c
        (Curl._get_error c m.result "perform"), ?_, ?_⟩
    · simp [process_data, halive, processMsgs, socket_action, hmsg, hc, hr]
    · rw [if_neg hr]
      exact set_exception_resolves (socket_action s sockfd ev_bitmask) c
        (Curl._get_error c m.result "perform") fid hf hp

/-- Witness for C4 at a failing status code (7). -/
theorem process_data_done_resolves_by_status_witness :
    exC4.curlmAlive = true ∧
    dictGet exC4.curl2curl 42 = some ⟨0, 42⟩ ∧
    dictGet exC4.curl2future ⟨0, 42⟩ = some 0 ∧
    dictGet exC4.futures 0 = some FutureState.pending ∧
    (∃ s', process_data exC4 (-1) 0 [⟨1, 42, 7⟩] = Except.ok s' ∧
      dictGet s'.futures 0 =
        some (if (7 : Nat) = 0 then FutureState.result
              else FutureState.error ⟨7, "perform"⟩)) :=
  ⟨rfl, rfl, rfl, rfl,
   process_data_done_resolves_by_status exC4 (-1) 0 ⟨1, 42, 7⟩ ⟨0, 42⟩ 0
     rfl rfl rfl rfl rfl⟩

/-- **C5**: a socket callback whose interest mask includes the remove bit,
for a descriptor that is not in the Socket Watch Set, raises a `TypeError`
that propagates out of the callback. -/
theorem socket_remove_untracked_raises (s : AsyncCurlState) (sockfd : Int)
    (what : Nat) (hmem : sockfd ∉ s.sockfds) (hrem : what &&& CURL_POLL_REMOVE ≠ 0) :
    socket_function s sockfd what =
      Except.error (PyError.typeError ("File descriptor " ++ toString sockfd ++ " not found.")) :=
  socket_function_remove_missing s sockfd what hmem hrem

/-- Witness for C5. -/
theorem socket_remove_untracked_raises_witness :
    (7 : Int) ∉ initState.sockfds ∧
    CURL_POLL_REMOVE &&& CURL_POLL_REMOVE ≠ 0 ∧
    socket_function initState 7 CURL_POLL_REMOVE =
      Except.error (PyError.typeError ("File descriptor " ++ toString (7 : Int) ++ " not found.")) :=
  ⟨by decide, by decide,
   socket_remove_untracked_raises initState 7 CURL_POLL_REMOVE (by decide) (by decide)⟩

/-- **C6** counterexample: removing tracked descriptor 7 succeeds, but
repeating the very same remove call raises `TypeError` — the repeated call
does not succeed, so removal is not idempotent. -/
theorem socket_remove_repeat_raises_cex :
    socket_function exC6 7 CURL_POLL_REMOVE = Except.ok initState ∧
    socket_function initState 7 CURL_POLL_REMOVE =
      Except.error (PyError.typeError "File descriptor 7 not found.") := ⟨rfl, rfl⟩

/-- **C6** (amended): a remove call for a tracked descriptor removes both
its reader and writer watches and drops it from the Socket Watch Set, but
repeating the same remove call is not idempotent: the second call raises
the contract-violation `TypeError`. -/
theorem socket_remove_tracked_then_repeat_raises (s : AsyncCurlState) (sockfd : Int)
    (hmem : sockfd ∈ s.sockfds) :
    ∃ s', socket_function s sockfd CURL_POLL_REMOVE = Except.ok s' ∧
      sockfd ∉ s'.readers ∧ sockfd ∉ s'.writers ∧ sockfd ∉ s'.sockfds ∧
      socket_function s' sockfd CURL_POLL_REMOVE =
        Except.error (PyError.typeError ("File descriptor " ++ toString sockfd ++ " not found.")) := by
  refine ⟨_, socket_function_remove_tracked s sockfd hmem, ?_, ?_, ?_, ?_⟩
  · simp [List.mem_filter]
  · simp [List.mem_filter]
  · simp [List.mem_filter]
  · exact socket_function_remove_missing _ sockfd CURL_POLL_REMOVE
      (by simp [List.mem_filter]) (by decide)

/-- Witness for the amended C6. -/
theorem socket_remove_tracked_then_repeat_raises_witness :
    (7 : Int) ∈ exC6.sockfds ∧
    (∃ s', socket_function exC6 7 CURL_POLL_REMOVE = Except.ok s' ∧
      (7 : Int) ∉ s'.readers ∧ (7 : Int) ∉ s'.writers ∧ (7 : Int) ∉ s'.sockfds ∧
      socket_function s' 7 CURL_POLL_REMOVE =
        Except.error (PyError.typeError ("File descriptor " ++ toString (7 : Int) ++ " not found."))) :=
  ⟨by decide, socket_remove_tracked_then_repeat_raises exC6 7 (by decide)⟩

/-- **C7**: `timer_function(-1)` cancels every timer currently in the Timer
Set, clears the set, and leaves every completion handle's state unchanged. -/
theorem timer_function_cancel_all (s : AsyncCurlState) (t : Nat) (ht : t ∈ s.timers) :
    (timer_function s (-1)).timers = [] ∧
    dictGet (timer_function s (-1)).timerStates t = some true ∧
    (timer_function s (-1)).futures = s.futures := by
  have hif : timer_function s (-1) =
      { s.timers.foldl cancelTimerStep s with timers := [] } := by
    simp [timer_function]
  rw [hif]
  refine ⟨rfl, ?_, ?_⟩
  · exact foldl_cancelTimerStep_cancelled _ _ t ht
  · simp

/-- Witness for C7. -/
theorem timer_function_cancel_all_witness :
    (3 : Nat) ∈ exC7.timers ∧
    ((timer_function exC7 (-1)).timers = [] ∧
     dictGet (timer_function exC7 (-1)).timerStates 3 = some true ∧
     (timer_function exC7 (-1)).futures = exC7.futures) :=
  ⟨by decide, timer_function_cancel_all exC7 3 (by decide)⟩

/-- **C8**: invoking the Drive Loop after the adapter has been closed emits
the diagnostic warning and returns with every other part of the state
unchanged: no engine call is recorded, no message is drained, and no
completion handle or registry entry changes. -/
theorem process_data_after_close_is_noop (s : AsyncCurlState) (sockfd : Int)
    (ev_bitmask : Nat) (msgs : List CurlMsg) (h : s.curlmAlive = false) :
    process_data s sockfd ev_bitmask msgs =
      Except.ok { s with warnings :=
        s.warnings ++ ["Curlm alread closed! quitting from process_data"] } := by
  simp [process_data, h]

/-- Witness for C8. -/
theorem process_data_after_close_is_noop_witness :
    ({ initState with curlmAlive := false } : AsyncCurlState).curlmAlive = false ∧
    process_data { initState with curlmAlive := false } (-1) 0 [⟨1, 42, 0⟩] =
      Except.ok { { initState with curlmAlive := false } with
                  warnings := ["Curlm alread closed! quitting from process_data"] } :=
  ⟨rfl, process_data_after_close_is_noop { initState with curlmAlive := false } (-1) 0
    [⟨1, 42, 0⟩] rfl⟩

/-- **C9** counterexample: `add_handle` on an already-registered transfer
does not fail: it returns normally with a second, distinct completion
handle (id 1, while handle 0 already exists and stays pending) and silently
replaces the registry mapping. -/
theorem add_handle_rereg_cex :
    (add_handle exC9 ⟨0, 42⟩).1 = 1 ∧
    dictGet (add_handle exC9 ⟨0, 42⟩).2.curl2future ⟨0, 42⟩ = some 1 ∧
    dictGet (add_handle exC9 ⟨0, 42⟩).2.futures 0 = some FutureState.pending ∧
    dictGet (add_handle exC9 ⟨0, 42⟩).2.futures 1 = some FutureState.pending := by
  refine ⟨rfl, ?_, ?_, ?_⟩ <;> decide

/-- **C9** (amended): registering an already-registered transfer does not
signal a programmer error: `add_handle` silently overwrites the registry
mapping with a fresh pending completion handle, and the previously created
handle keeps its state but is no longer reachable through the registry. -/
theorem add_handle_silently_reregisters (s : AsyncCurlState) (c : Curl) (fid : Nat)
    (_hreg : dictGet s.curl2future c = some fid) (hfresh : fid ≠ s.nextId) :
    (add_handle s c).1 = s.nextId ∧
    dictGet (add_handle s c).2.curl2future c = some s.nextId ∧
    dictGet (add_handle s c).2.futures s.nextId = some FutureState.pending ∧
    dictGet (add_handle s c).2.futures fid = dictGet s.futures fid ∧
    some s.nextId ≠ some fid := by
  refine ⟨rfl, ?_, ?_, ?_, ?_⟩
  · exact dictGet_dictSet_self _ _ _
  · exact dictGet_dictSet_self _ _ _
  · exact dictGet_dictSet_ne _ _ _ _ hfresh
  · intro hcon
    exact hfresh (Option.some.inj hcon).symm

/-- Witness for the amended C9. -/
theorem add_handle_silently_reregisters_witness :
    dictGet exC9.curl2future ⟨0, 42⟩ = some 0 ∧
    (0 : Nat) ≠ exC9.nextId ∧
    ((add_handle exC9 ⟨0, 42⟩).1 = exC9.nextId ∧
     dictGet (add_handle exC9 ⟨0, 42⟩).2.curl2future ⟨0, 42⟩ = some exC9.nextId ∧
     dictGet (add_handle exC9 ⟨0, 42⟩).2.futures exC9.nextId = some FutureState.pending ∧
     dictGet (add_handle exC9 ⟨0, 42⟩).2.futures 0 = dictGet exC9.futures 0 ∧
     some exC9.nextId ≠ some (0 : Nat)) :=
  ⟨by decide, by decide,
   add_handle_silently_reregisters exC9 ⟨0, 42⟩ 0 (by decide) (by decide)⟩

/-- **C10**: `remove_handle` on a transfer that is in neither registry
mapping returns normally (it has no raising path) and leaves every
completion handle and both registry mappings unchanged. -/
theorem remove_handle_unknown_is_noop (s : AsyncCurlState) (c : Curl)
    (h1 : dictGet s.curl2future c = none) (h2 : dictGet s.curl2curl c.ccurl = none) :
    (remove_handle s c).futures = s.futures ∧
    (remove_handle s c).curl2future = s.curl2future ∧
    (remove_handle s c).curl2curl = s.curl2curl := by
  have hpop1 : dictPop s.curl2future c = s.curl2future := dictPop_of_get_none _ _ h1
  have hpop2 : dictPop s.curl2curl c.ccurl = s.curl2curl := dictPop_of_get_none _ _ h2
  unfold remove_handle _pop_future
  rw [h1, hpop1, hpop2]
  exact ⟨rfl, rfl, rfl⟩

/-- Witness for C10. -/
theorem remove_handle_unknown_is_noop_witness :
    dictGet initState.curl2future ⟨1, 99⟩ = none ∧
    dictGet initState.curl2curl 99 = none ∧
    ((remove_handle initState ⟨1, 99⟩).futures = initState.futures ∧
     (remove_handle initState ⟨1, 99⟩).curl2future = initState.curl2future ∧
     (remove_handle initState ⟨1, 99⟩).curl2curl = initState.curl2curl) :=
  ⟨rfl, rfl, remove_handle_unknown_is_noop initState ⟨1, 99⟩ rfl rfl⟩
